import Mathlib

/-!
Verification of the explainable content-flagger moderation engine.

The TypeScript sources are shallowly embedded: JavaScript numbers are
modelled as rationals, JavaScript exceptions as values of Except String,
and the one reachable NaN (a 0/0 division on an empty hash string) by an
Option value, where none stands for NaN.  Numeric formatting inside
human-readable messages is modelled by toString.  Wall-clock reads
(Date.now and getHours) are passed in explicitly as a Clock value.
-/

set_option maxHeartbeats 1000000

namespace ContentFlagger

/-- JavaScript Math.round x, which is the floor of x + 1/2. -/
def jsRound (q : ℚ) : ℤ := (q + 1/2).floor

/-- The JavaScript idiom x || d for numbers: d when x is falsy (zero). -/
def jsOr (x d : ℚ) : ℚ := if x = 0 then d else x

/-- Clamp a rational to the interval from 0 to 100, as the scoring engine does
with Math.min and Math.max. -/
def clampQ (q : ℚ) : ℚ := min (max q 0) 100

/-- Clamp an integer to the interval from 0 to 100. -/
def clampZ (n : ℤ) : ℤ := min (max n 0) 100

/-- Indexing s[i] on a JavaScript string: none models undefined. -/
def charAt (s : String) (i : ℕ) : Option Char := s.data.get? i

/-- The counting loop inside hammingDistance of src/media/hashing.ts:
for each index of the first string, compare the characters and count the
differing positions. -/
def hammingLoop (h1 h2 : String) : ℕ :=
  (List.range h1.length).foldl
    (fun d i => if charAt h1 i ≠ charAt h2 i then d + 1 else d) 0

/-- Specification-style count of differing positions between two strings. -/
def diffCount (h1 h2 : String) : ℕ :=
  (List.range h1.length).countP (fun i => decide (charAt h1 i ≠ charAt h2 i))

/-- hammingDistance of src/media/hashing.ts: throws when the lengths differ,
otherwise returns the number of differing positions. -/
def hammingDistance (h1 h2 : String) : Except String ℕ :=
  if h1.length ≠ h2.length then Except.error "Hash lengths must be equal"
  else Except.ok (hammingLoop h1 h2)

/-- HashResult of src/media/hashing.ts. -/
structure HashResult where
  pHash : String
  dHash : String
  width : ℤ
  height : ℤ
deriving DecidableEq, Repr

/-- HashComparison of src/media/hashing.ts.  The distance fields are NaN
(modelled as none) exactly when the corresponding hash string is empty,
since the only division is by the hash length. -/
structure HashComparison where
  pHashDistance : Option ℚ
  dHashDistance : Option ℚ
  minDistance : Option ℚ
  isDuplicate : Bool
deriving DecidableEq, Repr

/-- JavaScript division num / den restricted to this code base: the
denominator is a string length, and a zero denominator occurs only with a
zero numerator, producing NaN (none). -/
def jsDiv (num : ℚ) (den : ℚ) : Option ℚ := if den = 0 then none else some (num / den)

/-- JavaScript Math.min, which propagates NaN (none). -/
def jsMin : Option ℚ → Option ℚ → Option ℚ
  | some a, some b => some (min a b)
  | _, _ => none

/-- JavaScript comparison m <= t, false when m is NaN (none). -/
def jsLe (m : Option ℚ) (t : ℚ) : Bool :=
  match m with
  | none => false
  | some v => decide (v ≤ t)

/-- compareHashes of src/media/hashing.ts: Hamming distances of the two hash
pairs, normalized by the length of the first result, minimum taken, and the
duplicate decision by comparison with the threshold. -/
def compareHashes (h1 h2 : HashResult) (threshold : ℚ) : Except String HashComparison := do
  let pd ← hammingDistance h1.pHash h2.pHash
  let dd ← hammingDistance h1.dHash h2.dHash
  let nPd := jsDiv (pd : ℚ) (h1.pHash.length : ℚ)
  let nDd := jsDiv (dd : ℚ) (h1.dHash.length : ℚ)
  let minD := jsMin nPd nDd
  Except.ok
    { pHashDistance := nPd
      dHashDistance := nDd
      minDistance := minD
      isDuplicate := jsLe minD threshold }

/-- computeSimilarity of the legacy module in src/media/image.ts and the
legacy moderateVideo: percentage of agreeing positions, counting over the
indices of the first string only (no length check, no exception). -/
def computeSimilarity (h1 h2 : String) : ℚ :=
  ((h1.length : ℚ) - (hammingLoop h1 h2 : ℚ)) / (h1.length : ℚ) * 100

/-- Flag source (src/schema.ts). -/
inductive Source
  | rule
  | ml
  | vision
  | metadata
deriving DecidableEq, Repr, Fintype

/-- Flag of src/schema.ts: an atomic finding. -/
structure Flag where
  source : Source
  category : String
  weight : ℚ
  message : String
  confidence : Option ℚ := none
  indices : Option (ℤ × ℤ) := none
  snippet : Option String := none
  frameIndex : Option ℤ := none
  mediaHash : Option String := none
  provider : Option String := none
deriving DecidableEq, Repr

/-- A flag spread together with an adjustedWeight property, as produced by
the scoring engine; the synthetic error flag of the engine carries no
adjustedWeight, hence the Option. -/
structure WFlag extends Flag where
  adjustedWeight : Option ℚ := none
deriving DecidableEq, Repr

/-- Moderation label. -/
inductive Label
  | allow
  | review
  | block
deriving DecidableEq, Repr

/-- Per-source weight configuration (src/config.ts, weights). -/
structure SourceWeights where
  rule : ℚ
  ml : ℚ
  vision : ℚ
  metadata : ℚ
deriving DecidableEq, Repr

/-- Threshold configuration (src/config.ts, thresholds). -/
structure Thresholds where
  block : ℚ
  review : ℚ
  duplicate : ℚ
deriving DecidableEq, Repr

/-- Temporal thresholds (src/config.ts, temporal). -/
structure TemporalConfig where
  burstHour : ℚ
  burstDay : ℚ
deriving DecidableEq, Repr

/-- Account thresholds (src/config.ts, account). -/
structure AccountConfig where
  newAccountDays : ℚ
  maxViolations : ℚ
deriving DecidableEq, Repr

/-- The slice of the configuration singleton that the core reads. -/
structure Config where
  enableLLM : Bool
  weights : SourceWeights
  thresholds : Thresholds
  temporal : TemporalConfig
  account : AccountConfig
deriving DecidableEq, Repr

/-- The lookup config.weights[flag.source]. -/
def Config.sourceWeight (c : Config) : Source → ℚ
  | .rule => c.weights.rule
  | .ml => c.weights.ml
  | .vision => c.weights.vision
  | .metadata => c.weights.metadata

/-- The default configuration values of src/config.ts. -/
def defaultConfig : Config :=
  { enableLLM := false
    weights := { rule := 1, ml := 4/5, vision := 9/10, metadata := 3/10 }
    thresholds := { block := 70, review := 30, duplicate := 3/20 }
    temporal := { burstHour := 10, burstDay := 50 }
    account := { newAccountDays := 7, maxViolations := 5 } }

/-- The ambient wall clock: Date.now in milliseconds and getHours. -/
structure Clock where
  nowMs : ℤ
  hour : ℕ
deriving DecidableEq, Repr

/-- Account context sub-object (src/schema.ts).  The createdAt ISO string
is modelled directly as the parsed epoch milliseconds. -/
structure AccountContext where
  createdAtMs : Option ℤ := none
  isVerified : Option Bool := none
  priorViolations : Option ℚ := none
deriving DecidableEq, Repr

/-- Posting history context sub-object (src/schema.ts). -/
structure PostingHistory where
  last24hCount : Option ℚ := none
  lastHourCount : Option ℚ := none
deriving DecidableEq, Repr

/-- Network context sub-object (src/schema.ts). -/
structure NetworkContext where
  similarTextClusterIds : Option (List String) := none
deriving DecidableEq, Repr

/-- Cross-platform context sub-object (src/schema.ts). -/
structure CrossPlatform where
  similarPostHashes : Option (List String) := none
deriving DecidableEq, Repr

/-- Engagement context sub-object (src/schema.ts). -/
structure Engagement where
  replies : Option ℚ := none
  likes : Option ℚ := none
  uniqueRepliers : Option ℚ := none
deriving DecidableEq, Repr

/-- Context object (src/schema.ts); every sub-object independently optional. -/
structure Context where
  account : Option AccountContext := none
  postingHistory : Option PostingHistory := none
  crossPlatform : Option CrossPlatform := none
  network : Option NetworkContext := none
  engagement : Option Engagement := none
deriving DecidableEq, Repr

/-- JavaScript truthiness of an optional number: undefined and 0 are falsy. -/
def truthy : Option ℚ → Bool
  | none => false
  | some v => decide (v ≠ 0)

/-- AccountFeatures of src/features/account.ts. -/
structure AccountFeatures where
  isNewAccount : Bool
  accountAgeDays : ℤ
  hasPriorViolations : Bool
  violationCount : ℚ
deriving DecidableEq, Repr

/-- analyzeAccountFeatures of src/features/account.ts: age flag, prior
violation flags and verification flags, in the order the code pushes them. -/
def analyzeAccountFeatures (cfg : Config) (clock : Clock) (ctx : AccountContext) :
    AccountFeatures × List Flag :=
  let ageResult : ℤ × Bool × List Flag :=
    match ctx.createdAtMs with
    | none => (0, false, [])
    | some created =>
        let ageDays : ℤ := ⌊(((clock.nowMs - created : ℤ) : ℚ) / 86400000)⌋
        if (ageDays : ℚ) ≤ cfg.account.newAccountDays then
          (ageDays, true,
            [{ source := .metadata, category := "new_account", weight := 15,
               message := "New account (" ++ toString ageDays ++ " days old)",
               confidence := some 1 }])
        else (ageDays, false, [])
  let violResult : Bool × ℚ × List Flag :=
    match ctx.priorViolations with
    | none => (false, 0, [])
    | some v =>
        if v ≠ 0 ∧ 0 < v then
          (true, v,
            if cfg.account.maxViolations ≤ v then
              [{ source := .metadata, category := "repeat_violator", weight := 25,
                 message := "Account has " ++ toString v ++ " prior violations",
                 confidence := some 1 }]
            else if 2 < v then
              [{ source := .metadata, category := "prior_violations", weight := 10,
                 message := "Account has " ++ toString v ++ " prior violations",
                 confidence := some 1 }]
            else [])
        else (false, 0, [])
  let verFlags : List Flag :=
    match ctx.isVerified with
    | some false =>
        [{ source := .metadata, category := "unverified_account", weight := 5,
           message := "Unverified account", confidence := some 1 }]
    | some true =>
        [{ source := .metadata, category := "verified_account", weight := -5,
           message := "Verified account", confidence := some 1 }]
    | none => []
  ({ isNewAccount := ageResult.2.1, accountAgeDays := ageResult.1,
     hasPriorViolations := violResult.1, violationCount := violResult.2.1 },
   ageResult.2.2 ++ violResult.2.2 ++ verFlags)

/-- getAccountRiskMultiplier, identical in src/features/account.ts and the
scoring module. -/
def getAccountRiskMultiplier (f : AccountFeatures) : ℚ :=
  let m : ℚ := 1
  let m := if f.isNewAccount then m * (3/2) else m
  let m := if f.hasPriorViolations then m * (1 + f.violationCount * (1/5)) else m
  min m 3

/-- TemporalFeatures of src/features/temporal.ts. -/
structure TemporalFeatures where
  isBursting : Bool
  burstHour : Bool
  burstDay : Bool
  postFrequency : ℚ
  timeOfDay : ℕ
deriving DecidableEq, Repr

/-- analyzeTemporalFeatures of src/features/temporal.ts.  Both counts must
be truthy for the burst analysis to run; postFrequency ends up as the daily
count divided by 24; the unusual-timing flag depends on the current hour
and fires whenever this analyzer runs at all. -/
def analyzeTemporalFeatures (cfg : Config) (clock : Clock) (ph : PostingHistory) :
    TemporalFeatures × List Flag :=
  let base : TemporalFeatures :=
    { isBursting := false, burstHour := false, burstDay := false,
      postFrequency := 0, timeOfDay := clock.hour }
  let freqResult : TemporalFeatures × List Flag :=
    if truthy ph.lastHourCount && truthy ph.last24hCount then
      let lastHour := ph.lastHourCount.getD 0
      let last24h := ph.last24hCount.getD 0
      let hourResult : Bool × List Flag :=
        if cfg.temporal.burstHour < lastHour then
          (true,
            [{ source := .metadata, category := "burst_posting", weight := 20,
               message := "High posting frequency: " ++ toString lastHour
                 ++ " posts in the last hour",
               confidence := some 1 }])
        else (false, [])
      let dayResult : Bool × List Flag :=
        if cfg.temporal.burstDay < last24h then
          (true,
            [{ source := .metadata, category := "high_volume", weight := 15,
               message := "High volume posting: " ++ toString last24h
                 ++ " posts in the last 24 hours",
               confidence := some 1 }])
        else (false, [])
      ({ base with
          burstHour := hourResult.1
          burstDay := dayResult.1
          isBursting := hourResult.1 || dayResult.1
          postFrequency := last24h / 24 },
       hourResult.2 ++ dayResult.2)
    else (base, [])
  let timingFlags : List Flag :=
    if clock.hour ≤ 5 then
      [{ source := .metadata, category := "unusual_timing", weight := 5,
         message := "Unusual posting time: " ++ toString clock.hour ++ ":00",
         confidence := some (7/10) }]
    else []
  (freqResult.1, freqResult.2 ++ timingFlags)

/-- getTemporalRiskMultiplier as exported by src/features/temporal.ts,
including the 1.1 factor for a post frequency above 10 per hour. -/
def getTemporalRiskMultiplier (f : TemporalFeatures) : ℚ :=
  let m : ℚ := 1
  let m := if f.burstHour then m * (13/10) else m
  let m := if f.burstDay then m * (6/5) else m
  let m := if 10 < f.postFrequency then m * (11/10) else m
  min m 2

/-- The private copy of getTemporalRiskMultiplier inside the scoring module
(the one calculateModerationScore actually calls); it has no post-frequency
factor. -/
def getTemporalRiskMultiplierScoring (f : TemporalFeatures) : ℚ :=
  let m : ℚ := 1
  let m := if f.burstHour then m * (13/10) else m
  let m := if f.burstDay then m * (6/5) else m
  min m 2

/-- NetworkFeatures of src/features/network.ts. -/
structure NetworkFeatures where
  hasSimilarContent : Bool
  similarClusterCount : ℕ
  hasCrossPlatformMatches : Bool
  crossPlatformMatchCount : ℕ
deriving DecidableEq, Repr

/-- analyzeNetworkFeatures of src/features/network.ts. -/
def analyzeNetworkFeatures (net : NetworkContext) (xp : CrossPlatform) :
    NetworkFeatures × List Flag :=
  let simResult : Bool × ℕ × List Flag :=
    match net.similarTextClusterIds with
    | none => (false, 0, [])
    | some ids =>
        if 0 < ids.length then
          (true, ids.length,
            if 5 < ids.length then
              [{ source := .metadata, category := "content_clustering", weight := 25,
                 message := "Content appears in " ++ toString ids.length
                   ++ " similar clusters",
                 confidence := some 1 }]
            else if 2 < ids.length then
              [{ source := .metadata, category := "content_clustering", weight := 15,
                 message := "Content appears in " ++ toString ids.length
                   ++ " similar clusters",
                 confidence := some 1 }]
            else [])
        else (false, 0, [])
  let xpResult : Bool × ℕ × List Flag :=
    match xp.similarPostHashes with
    | none => (false, 0, [])
    | some hs =>
        if 0 < hs.length then
          (true, hs.length,
            if 3 < hs.length then
              [{ source := .metadata, category := "cross_platform_spam", weight := 30,
                 message := "Content detected across " ++ toString hs.length
                   ++ " platforms",
                 confidence := some 1 }]
            else if 1 < hs.length then
              [{ source := .metadata, category := "cross_platform_spam", weight := 20,
                 message := "Content detected across " ++ toString hs.length
                   ++ " platforms",
                 confidence := some 1 }]
            else [])
        else (false, 0, [])
  ({ hasSimilarContent := simResult.1, similarClusterCount := simResult.2.1,
     hasCrossPlatformMatches := xpResult.1, crossPlatformMatchCount := xpResult.2.1 },
   simResult.2.2 ++ xpResult.2.2)

/-- getNetworkRiskMultiplier of src/features/network.ts and the scoring
module. -/
def getNetworkRiskMultiplier (f : NetworkFeatures) : ℚ :=
  let m : ℚ := 1
  let m := if f.hasSimilarContent then m * (1 + (f.similarClusterCount : ℚ) * (1/10)) else m
  let m := if f.hasCrossPlatformMatches then m * (1 + (f.crossPlatformMatchCount : ℚ) * (1/5)) else m
  min m (5/2)

/-- EngagementFeatures of src/features/engagement.ts. -/
structure EngagementFeatures where
  hasEngagement : Bool
  engagementRatio : ℚ
  uniqueReplierRatio : ℚ
  isLowQuality : Bool
  isHighQuality : Bool
deriving DecidableEq, Repr

/-- analyzeEngagementFeatures of src/features/engagement.ts.  An early
return fires when both replies and likes are falsy; the suspicious pattern
needs replies to be present and strictly equal to 0. -/
def analyzeEngagementFeatures (e : Engagement) : EngagementFeatures × List Flag :=
  let base : EngagementFeatures :=
    { hasEngagement := false, engagementRatio := 0, uniqueReplierRatio := 0,
      isLowQuality := false, isHighQuality := false }
  if !truthy e.replies && !truthy e.likes then (base, [])
  else
    let ratioResult : ℚ × Bool × List Flag :=
      if truthy e.replies && truthy e.likes then
        let r := e.replies.getD 0
        let l := e.likes.getD 0
        let ratio := r / l
        if ratio < 1/100 ∧ 100 < l then
          (ratio, true,
            [{ source := .metadata, category := "low_engagement", weight := 15,
               message := "Low engagement ratio: " ++ toString (ratio * 100)
                 ++ "% replies/likes",
               confidence := some (4/5) }])
        else (ratio, false, [])
      else (0, false, [])
    let urResult : ℚ × Bool × List Flag :=
      if truthy e.replies && truthy e.uniqueRepliers then
        let r := e.replies.getD 0
        let u := e.uniqueRepliers.getD 0
        let urr := u / r
        let hqResult : Bool × List Flag :=
          if 4/5 < urr ∧ 10 < r then
            (true,
              [{ source := .metadata, category := "high_quality_engagement",
                 weight := -10,
                 message := "High quality engagement: " ++ toString (urr * 100)
                   ++ "% unique repliers",
                 confidence := some (9/10) }])
          else (false, [])
        let coordFlags : List Flag :=
          if urr < 3/10 ∧ 5 < r then
            [{ source := .metadata, category := "coordinated_engagement", weight := 20,
               message := "Low unique replier ratio: " ++ toString (urr * 100)
                 ++ "% unique repliers",
               confidence := some (7/10) }]
          else []
        (urr, hqResult.1, hqResult.2 ++ coordFlags)
      else (0, false, [])
    let suspFlags : List Flag :=
      if truthy e.likes || truthy e.replies then
        (if truthy e.likes ∧ 1000 < e.likes.getD 0 ∧ e.replies = some 0 then
          [{ source := .metadata, category := "suspicious_engagement", weight := 25,
             message := "High likes with no replies (possible fake engagement)",
             confidence := some (4/5) }]
        else [])
        ++ (if truthy e.replies ∧ 50 < e.replies.getD 0
              ∧ truthy e.likes ∧ e.likes.getD 0 < 10 then
          [{ source := .metadata, category := "coordinated_engagement", weight := 20,
             message := "High replies with low likes (possible coordinated activity)",
             confidence := some (7/10) }]
        else [])
      else []
    ({ hasEngagement := true, engagementRatio := ratioResult.1,
       uniqueReplierRatio := urResult.1, isLowQuality := ratioResult.2.1,
       isHighQuality := urResult.2.1 },
     ratioResult.2.2 ++ urResult.2.2 ++ suspFlags)

/-- getEngagementRiskMultiplier of src/features/engagement.ts and the
scoring module. -/
def getEngagementRiskMultiplier (f : EngagementFeatures) : ℚ :=
  let m : ℚ := 1
  let m := if f.isLowQuality then m * (13/10) else m
  let m := if f.isHighQuality then m * (4/5) else m
  max m (1/2)

/-- analyzeContextFeatures of the scoring module: run each analyzer when its
sub-object is present, collecting flags and one multiplier per dimension in
insertion order (account, temporal, network, engagement).  The network
analyzer runs when either the network or the cross-platform sub-object is
present, defaulting the other to an empty list. -/
def analyzeContextFeatures (cfg : Config) (clock : Clock) (ctx : Context) :
    List Flag × List ℚ :=
  let aResult : List Flag × List ℚ :=
    match ctx.account with
    | some a =>
        let r := analyzeAccountFeatures cfg clock a
        (r.2, [getAccountRiskMultiplier r.1])
    | none => ([], [])
  let tResult : List Flag × List ℚ :=
    match ctx.postingHistory with
    | some ph =>
        let r := analyzeTemporalFeatures cfg clock ph
        (r.2, [getTemporalRiskMultiplierScoring r.1])
    | none => ([], [])
  let nResult : List Flag × List ℚ :=
    if ctx.network.isSome || ctx.crossPlatform.isSome then
      let r := analyzeNetworkFeatures
        (ctx.network.getD { similarTextClusterIds := some [] })
        (ctx.crossPlatform.getD { similarPostHashes := some [] })
      (r.2, [getNetworkRiskMultiplier r.1])
    else ([], [])
  let eResult : List Flag × List ℚ :=
    match ctx.engagement with
    | some e =>
        let r := analyzeEngagementFeatures e
        (r.2, [getEngagementRiskMultiplier r.1])
    | none => ([], [])
  (aResult.1 ++ tResult.1 ++ nResult.1 ++ eResult.1,
   aResult.2 ++ tResult.2 ++ nResult.2 ++ eResult.2)

/-- The adjustedWeight step of the scoring engine: spread the flag and add
adjustedWeight = weight times (config.weights[source] || 1.0). -/
def weightFlag (cfg : Config) (f : Flag) : WFlag :=
  { f with adjustedWeight := some (f.weight * jsOr (cfg.sourceWeight f.source) 1) }

/-- ScoringResult of the scoring module (debug trace omitted: it is purely
observational). -/
structure ScoringResult where
  score : ℤ
  label : Label
  flags : List WFlag
deriving DecidableEq, Repr

/-- calculateModerationScore of the scoring module: weight the incoming
flags, sum their adjusted weights into baseScore, multiply by the context
multipliers when a context is supplied (appending the weighted analyzer
flags to the output list), clamp to the 0..100 range, pick the label from
the clamped pre-rounded value, and round for the reported score. -/
def calculateModerationScore (cfg : Config) (clock : Clock) (flags : List Flag)
    (context : Option Context) : ScoringResult :=
  let weightedFlags := flags.map (weightFlag cfg)
  let baseScore := weightedFlags.foldl (fun acc f => acc + f.adjustedWeight.getD 0) 0
  let scored : ℚ × List WFlag :=
    match context with
    | none => (baseScore, weightedFlags)
    | some ctx =>
        let fr := analyzeContextFeatures cfg clock ctx
        (fr.2.foldl (fun s m => s * m) baseScore,
         weightedFlags ++ fr.1.map (weightFlag cfg))
  let finalScore := min (max scored.1 0) 100
  let label : Label :=
    if cfg.thresholds.block ≤ finalScore then .block
    else if cfg.thresholds.review ≤ finalScore then .review
    else .allow
  { score := jsRound finalScore, label := label, flags := scored.2 }

/-- Specification-style adjusted weight of one flag. -/
def adjustedWeightOf (cfg : Config) (f : Flag) : ℚ :=
  f.weight * jsOr (cfg.sourceWeight f.source) 1

/-- Specification-style base score: sum of adjusted weights. -/
def baseScoreSpec (cfg : Config) (flags : List Flag) : ℚ :=
  (flags.map (adjustedWeightOf cfg)).sum

/-- Specification-style final score before clamping and rounding. -/
def rawFinalScore (cfg : Config) (clock : Clock) (flags : List Flag) :
    Option Context → ℚ
  | none => baseScoreSpec cfg flags
  | some ctx => baseScoreSpec cfg flags * ((analyzeContextFeatures cfg clock ctx).2).prod

/-- Specification-style label selection on a (clamped, pre-rounded) score. -/
def labelForScore (cfg : Config) (s : ℚ) : Label :=
  if cfg.thresholds.block ≤ s then .block
  else if cfg.thresholds.review ≤ s then .review
  else .allow

/-- A category entry of a provider result (src/schema.ts ProviderResult). -/
structure Detection where
  confidence : ℚ
  label : String
deriving DecidableEq, Repr

/-- The ML flag built for one provider category inside moderateTextWithML
(src/detectors/mlText.ts). -/
def mkMLFlag (providerName : String) (category : String) (d : Detection) : Flag :=
  { source := .ml, category := category,
    weight := ((jsRound (d.confidence * 40) : ℤ) : ℚ),
    message := "ML detection: " ++ d.label ++ " (" ++ toString (d.confidence * 100)
      ++ "%)",
    confidence := some d.confidence, provider := some providerName }

/-- The category-to-flag loop of moderateTextWithML: only categories with
confidence strictly above 0.6 become flags. -/
def mlFlagsFromCategories (providerName : String) :
    List (String × Detection) → List Flag
  | [] => []
  | (c, d) :: rest =>
      (if 3/5 < d.confidence then [mkMLFlag providerName c d] else [])
        ++ mlFlagsFromCategories providerName rest

/-- The reinforcement adjustment applied by mergeMLAndRuleFlags to an ML
flag whose category a rule already flagged: weight reduced by 30 percent
and rounded, message annotated. -/
def reinforceFlag (f : Flag) : Flag :=
  { f with
      weight := ((jsRound (f.weight * (7/10)) : ℤ) : ℚ)
      message := f.message ++ " (reinforced by rules)" }

/-- mergeMLAndRuleFlags of src/detectors/mlText.ts: keep all rule flags,
then append each ML flag, adjusted when its category is already
rule-flagged. -/
def mergeMLAndRuleFlags (mlFlags ruleFlags : List Flag) : List Flag :=
  let ruleCategories := ruleFlags.map Flag.category
  ruleFlags ++ mlFlags.map (fun f =>
    if ruleCategories.contains f.category then reinforceFlag f else f)

/-- One whitelist entry of applyWhitelistRules: the regex source text and
the categories it applies to. -/
structure WhitelistRule where
  pattern : String
  categories : List String
deriving DecidableEq, Repr

/-- The three whitelist patterns of src/detectors/mlText.ts. -/
def whitelistPatterns : List WhitelistRule :=
  [ { pattern := "discuss|discussion|warning|awareness|education|learn"
      categories := ["scam"] }
  , { pattern := "news|report|article|coverage|investigation"
      categories := ["violence", "hate"] }
  , { pattern := "research|study|analysis|paper|academic|university"
      categories := ["sexual", "violence"] } ]

/-- applyWhitelistRules of src/detectors/mlText.ts: every flag is kept; a
flag whose category belongs to the first whitelist rule whose pattern
matches the text gets its weight halved (rounded) and its message
annotated.  Regex matching is treated as an uninterpreted pure predicate
rtest on the pattern source and the text. -/
def applyWhitelistRules (rtest : String → String → Bool) (flags : List Flag)
    (text : String) : List Flag :=
  flags.map (fun f =>
    match whitelistPatterns.find? (fun wl =>
        wl.categories.contains f.category && rtest wl.pattern text) with
    | some _ =>
        { f with
            weight := ((jsRound (f.weight * (1/2)) : ℤ) : ℚ)
            message := f.message ++ " (whitelisted context)" }
    | none => f)

/-- MLTextResult of src/detectors/mlText.ts. -/
structure MLTextResult where
  flags : List Flag
  provider : String
  enabled : Bool
deriving DecidableEq, Repr

/-- Platform identifier. -/
inductive Platform
  | generic
  | x
  | instagram
  | tiktok
deriving DecidableEq, Repr

/-- Media kind. -/
inductive MediaType
  | image
  | video
deriving DecidableEq, Repr

/-- Media reference (src/schema.ts). -/
structure Media where
  url : String
  mediaType : MediaType
deriving DecidableEq, Repr

/-- The options argument of moderateContent. -/
structure Options where
  platform : Option Platform := none
  context : Option Context := none
deriving DecidableEq, Repr

/-- The terminal result of the engine (debug trace omitted). -/
structure ModerationResult where
  score : ℤ
  label : Label
  platform : Platform
  flags : List WFlag
deriving DecidableEq, Repr

/-- The external collaborators of moderateContent, modelled as pure
Except-valued functions: the rule-detector battery, the ML text path, the
two media moderators, and the regex tester used by the whitelist pass.  An
error value models a JavaScript exception thrown inside the stage. -/
structure EngineEnv where
  det : String → Except String (List Flag)
  ml : String → Except String MLTextResult
  modImage : Media → Except String (List Flag)
  modVideo : Media → Except String (List Flag)
  rtest : String → String → Bool

/-- Steps 1 to 4 of moderateContent (src/engine.ts): rule detectors, ML
merge, media flags, whitelist pass.  This is the body of the try block up
to the scoring call; an error models an exception reaching the catch. -/
def pipelineFlags (cfg : Config) (env : EngineEnv) (text : Option String)
    (media : Option Media) : Except String (List Flag) := do
  let ruleFlags ← match text with
    | some t => env.det t
    | none => pure []
  let mergedFlags ← match text with
    | some t =>
        if cfg.enableLLM then do
          let mlResult ← env.ml t
          if mlResult.enabled && !mlResult.flags.isEmpty then
            pure (mergeMLAndRuleFlags mlResult.flags ruleFlags)
          else
            pure ruleFlags
        else
          pure ruleFlags
    | none => pure ruleFlags
  let mediaFlags ← match media with
    | some m =>
        match m.mediaType with
        | .image => env.modImage m
        | .video => env.modVideo m
    | none => pure []
  let combined := mergedFlags ++ mediaFlags
  match text with
  | some t => pure (applyWhitelistRules env.rtest combined t)
  | none => pure combined

/-- The synthetic flag built in the catch block of moderateContent; it has
no adjustedWeight. -/
def errorFlag (msg : String) : WFlag :=
  { source := .rule, category := "error", weight := 100,
    message := "Moderation error: " ++ msg }

/-- The fail-closed result of the catch block of moderateContent. -/
def errorResult (opts : Options) (msg : String) : ModerationResult :=
  { score := 100, label := .block, platform := opts.platform.getD .generic,
    flags := [errorFlag msg] }

/-- moderateContent of src/engine.ts: run the pipeline, score the flags,
and on any exception return the fail-closed error result. -/
def moderateContent (cfg : Config) (clock : Clock) (env : EngineEnv)
    (text : Option String) (media : Option Media) (opts : Options) :
    ModerationResult :=
  match pipelineFlags cfg env text media with
  | Except.ok flags =>
      let sr := calculateModerationScore cfg clock flags opts.context
      { score := sr.score, label := sr.label,
        platform := opts.platform.getD .generic, flags := sr.flags }
  | Except.error e => errorResult opts e

/-- A context has no time-dependent fields when account.createdAt is absent
and the posting-history sub-object is absent (the temporal analyzer reads
the current hour whenever it runs). -/
def Context.timeFree (c : Context) : Bool :=
  (match c.account with
   | none => true
   | some a => a.createdAtMs.isNone) && c.postingHistory.isNone

/-- Lift of Context.timeFree to an optional context. -/
def contextTimeFree : Option Context → Bool
  | none => true
  | some c => c.timeFree

/-- The duplicate flag pushed by moderateImage (current variant in
src/media/image.ts). -/
def duplicateImageFlag (pHash : String) (similarity : ℚ) : Flag :=
  { source := .metadata, category := "duplicate", weight := 20,
    message := "Duplicate image detected (" ++ toString (similarity * 100)
      ++ "% similarity)",
    mediaHash := some pHash, confidence := some similarity }

/-- The candidate loop of the current moderateImage: Hamming distance to
each pool entry, normalized by the candidate hash length; on the first
entry within the duplicate threshold, push one flag, record the matched
hash and the similarity, and stop. -/
def scanCandidates (cfg : Config) (pHash : String) :
    List String → Except String (List Flag × Option String × Option ℚ)
  | [] => Except.ok ([], none, none)
  | c :: rest => do
      let dist ← hammingDistance pHash c
      let normalized : ℚ := (dist : ℚ) / (pHash.length : ℚ)
      if normalized ≤ cfg.thresholds.duplicate then
        Except.ok ([duplicateImageFlag pHash (1 - normalized)], some c,
          some (1 - normalized))
      else
        scanCandidates cfg pHash rest

/-- The duplicate flag pushed per keyframe by the current moderateVideo
(src/media/video.ts), annotated with the frame index. -/
def duplicateVideoFlag (pHash : String) (frameIndex : ℤ) (similarity : ℚ) : Flag :=
  { source := .metadata, category := "duplicate", weight := 20,
    message := "Duplicate video frame detected (" ++ toString (similarity * 100)
      ++ "% similarity)",
    mediaHash := some pHash, frameIndex := some frameIndex,
    confidence := some similarity }

/-- The per-keyframe candidate loop of the current moderateVideo: same
criterion as the image path, with a break after the first match. -/
def scanFrameForDuplicates (cfg : Config) (pHash : String) (frameIndex : ℤ) :
    List String → Except String (List Flag)
  | [] => Except.ok []
  | c :: rest => do
      let dist ← hammingDistance pHash c
      let normalized : ℚ := (dist : ℚ) / (pHash.length : ℚ)
      if normalized ≤ cfg.thresholds.duplicate then
        Except.ok [duplicateVideoFlag pHash frameIndex (1 - normalized)]
      else
        scanFrameForDuplicates cfg pHash frameIndex rest

/-- The duplicate flag pushed per match by the legacy moderateVideo, whose
confidence is the similarity percentage divided by 100. -/
def legacyDuplicateVideoFlag (pHash : String) (frameIndex : ℤ)
    (distancePct : ℚ) : Flag :=
  { source := .metadata, category := "duplicate", weight := 20,
    message := "Duplicate video frame detected (" ++ toString distancePct
      ++ "% similarity)",
    mediaHash := some pHash, frameIndex := some frameIndex,
    confidence := some (distancePct / 100) }

/-- The per-keyframe candidate loop of the legacy moderateVideo variant in
src/media/image.ts: computeSimilarity against every pool entry, pushing a
flag for each entry whose similarity percentage reaches
(1 - duplicateThreshold) * 100; there is no break. -/
def legacyScanFrame (cfg : Config) (pHash : String) (frameIndex : ℤ) :
    List String → List Flag
  | [] => []
  | c :: rest =>
      let distance := computeSimilarity pHash c
      (if (1 - cfg.thresholds.duplicate) * 100 ≤ distance then
        [legacyDuplicateVideoFlag pHash frameIndex distance]
      else [])
        ++ legacyScanFrame cfg pHash frameIndex rest

/-- Specification-style duplicate criterion: normalized Hamming distance at
most the configured threshold. -/
def isDuplicateMatch (cfg : Config) (pHash c : String) : Bool :=
  decide ((diffCount pHash c : ℚ) / (pHash.length : ℚ) ≤ cfg.thresholds.duplicate)

/-- Specification-style normalized distance. -/
def normalizedDistance (pHash c : String) : ℚ :=
  (diffCount pHash c : ℚ) / (pHash.length : ℚ)

/-- A concrete engine environment whose stages all succeed with no flags. -/
def okEnv : EngineEnv :=
  { det := fun _ => Except.ok []
    ml := fun _ => Except.ok { flags := [], provider := "none", enabled := false }
    modImage := fun _ => Except.ok []
    modVideo := fun _ => Except.ok []
    rtest := fun _ _ => false }

/-- A concrete engine environment whose detector stage throws. -/
def throwingEnv : EngineEnv :=
  { det := fun _ => Except.error "boom"
    ml := fun _ => Except.ok { flags := [], provider := "none", enabled := false }
    modImage := fun _ => Except.ok []
    modVideo := fun _ => Except.ok []
    rtest := fun _ _ => false }

/-- A concrete context with only an engagement sub-object (time-free). -/
def sampleEngagementContext : Context :=
  { engagement := some { replies := some 0, likes := some 2000 } }

/-- Concrete options carrying the time-free sample context. -/
def sampleOptions : Options :=
  { platform := some .x, context := some sampleEngagementContext }

/-- A concrete rule flag used as a test vector (the pii email flag of the
detector battery). -/
def piiSampleFlag : Flag :=
  { source := .rule, category := "pii", weight := 15,
    message := "Email address detected" }

/-- A concrete ML flag used as a test vector. -/
def mlSampleFlag : Flag :=
  { source := .ml, category := "spam", weight := 12,
    message := "ML detection" }

section HashLemmas

theorem foldl_count_ite {α : Type} (p : α → Prop) [DecidablePred p] (l : List α) (n : ℕ) :
    l.foldl (fun d i => if p i then d + 1 else d) n = n + l.countP (fun i => decide (p i)) := by
  induction l generalizing n with
  | nil => simp
  | cons a l ih =>
      simp only [List.foldl_cons, List.countP_cons, ih]
      by_cases h : p a
      · simp [h]
        omega
      · simp [h]

theorem hammingLoop_eq_diffCount (h1 h2 : String) : hammingLoop h1 h2 = diffCount h1 h2 := by
  simpa [hammingLoop, diffCount] using
    foldl_count_ite (fun i => charAt h1 i ≠ charAt h2 i) (List.range h1.length) 0

theorem hammingLoop_self (h : String) : hammingLoop h h = 0 := by
  rw [hammingLoop_eq_diffCount]
  simp [diffCount]

theorem hammingDistance_ok (h1 h2 : String) (h : h1.length = h2.length) :
    hammingDistance h1 h2 = Except.ok (diffCount h1 h2) := by
  simp [hammingDistance, h, hammingLoop_eq_diffCount]

theorem hammingLoop_comm (h1 h2 : String) (h : h1.length = h2.length) :
    hammingLoop h1 h2 = hammingLoop h2 h1 := by
  rw [hammingLoop_eq_diffCount, hammingLoop_eq_diffCount, diffCount, diffCount, h]
  apply List.countP_congr
  intro i _
  simp [ne_comm]

end HashLemmas

/-- C10: hammingDistance is total on equal-length inputs and raises exactly
when the lengths differ; under the equal-length precondition the error
branch is unreachable and the value is the count of differing positions. -/
theorem hammingDistance_total_on_equal_lengths (h1 h2 : String) :
    (h1.length = h2.length → hammingDistance h1 h2 = Except.ok (diffCount h1 h2))
    ∧ (h1.length ≠ h2.length → hammingDistance h1 h2 = Except.error "Hash lengths must be equal") := by
  constructor
  · intro h
    exact hammingDistance_ok h1 h2 h
  · intro h
    simp [hammingDistance, h]

/-- Witness for C10 at concrete inputs. -/
theorem hammingDistance_total_on_equal_lengths_witness :
    hammingDistance "1010" "1001" = Except.ok (diffCount "1010" "1001")
    ∧ hammingDistance "10" "100" = Except.error "Hash lengths must be equal" :=
  ⟨(hammingDistance_total_on_equal_lengths "1010" "1001").1 (by decide),
   (hammingDistance_total_on_equal_lengths "10" "100").2 (by decide)⟩

/-- C6 (amended): hammingDistance of a hash with itself is 0 and
hammingDistance is symmetric on equal-length strings; compareHashes of a
HashResult with itself is a duplicate for every threshold at least 0,
provided both hash strings are nonempty (for empty hash strings the
normalized distance is NaN from the 0/0 division and the comparison with
the threshold is then false). -/
theorem hashing_reflexive_and_symmetric :
    (∀ h : String, hammingDistance h h = Except.ok 0)
    ∧ (∀ a b : String, a.length = b.length → hammingDistance a b = hammingDistance b a)
    ∧ (∀ (h : HashResult) (t : ℚ), 0 ≤ t → h.pHash.length ≠ 0 → h.dHash.length ≠ 0 →
        ∃ c, compareHashes h h t = Except.ok c ∧ c.isDuplicate = true) := by
  refine ⟨?_, ?_, ?_⟩
  · intro h
    simp [hammingDistance, hammingLoop_self]
  · intro a b hlen
    simp [hammingDistance, hlen, hammingLoop_comm a b hlen]
  · intro h t ht hp hd
    have hp' : (h.pHash.length : ℚ) ≠ 0 := by exact_mod_cast hp
    have hd' : (h.dHash.length : ℚ) ≠ 0 := by exact_mod_cast hd
    refine ⟨{ pHashDistance := some 0, dHashDistance := some 0,
              minDistance := some 0, isDuplicate := true }, ?_, rfl⟩
    simp [compareHashes, hammingDistance, hammingLoop_self, jsDiv, jsMin, jsLe,
      hp', hd', ht, Bind.bind, Except.bind]

/-- Witness for C6 at a concrete 8-bit hash pair. -/
theorem hashing_reflexive_and_symmetric_witness :
    hammingDistance "10101010" "10101010" = Except.ok 0
    ∧ hammingDistance "1100" "0011" = hammingDistance "0011" "1100"
    ∧ ∃ c, compareHashes ⟨"10101010", "01010101", 8, 8⟩ ⟨"10101010", "01010101", 8, 8⟩ (3/20)
        = Except.ok c ∧ c.isDuplicate = true :=
  ⟨hashing_reflexive_and_symmetric.1 "10101010",
   hashing_reflexive_and_symmetric.2.1 "1100" "0011" (by decide),
   hashing_reflexive_and_symmetric.2.2 ⟨"10101010", "01010101", 8, 8⟩ (3/20)
     (by norm_num) (by decide) (by decide)⟩

/-- Counterexample for C6 as stated: for the HashResult with empty hash
strings (produced by the fallback path of moderateImage) and the default
threshold 0.15, which is at least 0, compareHashes of the value with itself
reports isDuplicate = false, because 0/0 is NaN and NaN is not below any
threshold. -/
theorem compareHashes_empty_not_duplicate :
    (0 : ℚ) ≤ 3/20
    ∧ ∃ c, compareHashes ⟨"", "", 0, 0⟩ ⟨"", "", 0, 0⟩ (3/20) = Except.ok c
        ∧ c.isDuplicate = false := by
  refine ⟨by norm_num, ⟨_, rfl, rfl⟩⟩

section ScoringLemmas

theorem foldl_add_map {α : Type} (g : α → ℚ) (l : List α) (c : ℚ) :
    l.foldl (fun acc x => acc + g x) c = c + (l.map g).sum := by
  induction l generalizing c with
  | nil => simp
  | cons a l ih =>
      simp only [List.foldl_cons, List.map_cons, List.sum_cons, ih]
      ring

theorem foldl_mul (l : List ℚ) (c : ℚ) :
    l.foldl (fun s m => s * m) c = c * l.prod := by
  induction l generalizing c with
  | nil => simp
  | cons a l ih =>
      simp only [List.foldl_cons, List.prod_cons, ih]
      ring

theorem weightFlag_adjustedWeight (cfg : Config) (f : Flag) :
    (weightFlag cfg f).adjustedWeight.getD 0 = adjustedWeightOf cfg f := rfl

theorem calc_base_eq (cfg : Config) (flags : List Flag) :
    (flags.map (weightFlag cfg)).foldl (fun acc f => acc + f.adjustedWeight.getD 0) 0
      = baseScoreSpec cfg flags := by
  rw [foldl_add_map (fun f : WFlag => f.adjustedWeight.getD 0) (flags.map (weightFlag cfg)) 0]
  simp only [baseScoreSpec, List.map_map, zero_add]
  rfl

theorem calculateModerationScore_eq (cfg : Config) (clock : Clock)
    (flags : List Flag) (octx : Option Context) :
    calculateModerationScore cfg clock flags octx =
      { score := jsRound (clampQ (rawFinalScore cfg clock flags octx))
        label := labelForScore cfg (clampQ (rawFinalScore cfg clock flags octx))
        flags := flags.map (weightFlag cfg) ++
          (match octx with
           | none => []
           | some ctx => (analyzeContextFeatures cfg clock ctx).1.map (weightFlag cfg)) } := by
  cases octx with
  | none =>
      simp only [calculateModerationScore, rawFinalScore, labelForScore, clampQ,
        calc_base_eq, List.append_nil]
  | some ctx =>
      simp only [calculateModerationScore, rawFinalScore, labelForScore, clampQ,
        calc_base_eq, foldl_mul]

theorem jsOr_of_pos {w : ℚ} (h : 0 < w) : jsOr w 1 = w := by
  simp [jsOr, ne_of_gt h]

theorem jsRound_eq_intFloor (q : ℚ) : jsRound q = ⌊q + 1/2⌋ := by
  rw [jsRound, Rat.floor_def', Rat.floor_def]

theorem jsRound_mono {a b : ℚ} (h : a ≤ b) : jsRound a ≤ jsRound b := by
  rw [jsRound_eq_intFloor, jsRound_eq_intFloor]
  exact Int.floor_le_floor (by linarith)

theorem jsRound_nonneg {a : ℚ} (h : 0 ≤ a) : 0 ≤ jsRound a := by
  rw [jsRound_eq_intFloor, Int.le_floor]
  push_cast
  linarith

theorem jsRound_hundred : jsRound 100 = 100 := by
  rw [jsRound_eq_intFloor]
  norm_num

theorem round_clamp_comm {S : ℚ} (h : 0 ≤ S) :
    jsRound (clampQ S) = clampZ (jsRound S) := by
  rw [clampQ, clampZ, max_eq_left h, max_eq_left (jsRound_nonneg h)]
  rcases le_or_lt S 100 with h1 | h1
  · rw [min_eq_left h1, min_eq_left]
    calc jsRound S ≤ jsRound 100 := jsRound_mono h1
      _ = 100 := jsRound_hundred
  · rw [min_eq_right (le_of_lt h1), jsRound_hundred, min_eq_right]
    calc (100 : ℤ) = jsRound 100 := jsRound_hundred.symm
      _ ≤ jsRound S := jsRound_mono (le_of_lt h1)

end ScoringLemmas

/-- C3: for every input, the label is decided by comparing the clamped,
pre-rounded final score against the thresholds (block when the score
reaches the block threshold, else review when it reaches the review
threshold, else allow), and the reported score is that same clamped value
rounded to the nearest integer; rounding therefore never affects the
label. -/
theorem label_from_preRounded_score (cfg : Config) (clock : Clock)
    (flags : List Flag) (octx : Option Context) :
    (calculateModerationScore cfg clock flags octx).label
        = labelForScore cfg (clampQ (rawFinalScore cfg clock flags octx))
    ∧ (calculateModerationScore cfg clock flags octx).score
        = jsRound (clampQ (rawFinalScore cfg clock flags octx)) := by
  rw [calculateModerationScore_eq]
  exact ⟨rfl, rfl⟩

/-- C1 (amended): when a context is supplied, the analyzer flags are
processed through the same adjustedWeight step and appended to the output
flag list, but the summed base score covers only the caller-supplied
flags; the final score is the base score of the caller-supplied flags
multiplied by the context multipliers, and the analyzer flags do not
contribute to it. -/
theorem context_flags_weighted_but_not_summed (cfg : Config) (clock : Clock)
    (flags : List Flag) (ctx : Context) :
    ((calculateModerationScore cfg clock flags (some ctx)).flags
        = flags.map (weightFlag cfg)
          ++ (analyzeContextFeatures cfg clock ctx).1.map (weightFlag cfg))
    ∧ (∀ f : Flag, (weightFlag cfg f).adjustedWeight
        = some (f.weight * jsOr (cfg.sourceWeight f.source) 1))
    ∧ ((calculateModerationScore cfg clock flags (some ctx)).score
        = jsRound (clampQ (baseScoreSpec cfg flags
            * ((analyzeContextFeatures cfg clock ctx).2).prod))) := by
  rw [calculateModerationScore_eq]
  exact ⟨rfl, fun f => rfl, rfl⟩

/-- Counterexample for C1 as stated: with no caller-supplied flags and a
context whose account is merely unverified, the analyzer emits an
unverified_account flag of weight 5 (adjusted weight 1.5) and every
multiplier is 1, so the claimed formula (sum of adjusted weights over all
output flags times the multipliers) yields the reported score 2, but the
engine reports score 0: the analyzer flags are not part of the sum. -/
theorem context_flags_score_counterexample :
    (calculateModerationScore defaultConfig ⟨0, 12⟩ []
        (some { account := some { isVerified := some false } })).score = 0
    ∧ jsRound (clampQ
        ((((calculateModerationScore defaultConfig ⟨0, 12⟩ []
              (some { account := some { isVerified := some false } })).flags.map
            (fun wf => wf.adjustedWeight.getD 0)).sum)
          * ((analyzeContextFeatures defaultConfig ⟨0, 12⟩
              { account := some { isVerified := some false } }).2).prod)) = 2 := by
  rw [calculateModerationScore_eq]
  constructor
  · simp [rawFinalScore, baseScoreSpec, adjustedWeightOf, analyzeContextFeatures,
      analyzeAccountFeatures, getAccountRiskMultiplier, weightFlag, jsOr,
      clampQ, jsRound_eq_intFloor, Config.sourceWeight, defaultConfig]
    norm_num
  · simp [rawFinalScore, baseScoreSpec, adjustedWeightOf, analyzeContextFeatures,
      analyzeAccountFeatures, getAccountRiskMultiplier, weightFlag, jsOr,
      clampQ, jsRound_eq_intFloor, Config.sourceWeight, defaultConfig]
    norm_num

/-- C2: for every flag list with only nonnegative weights, positive
configured source weights, and no context, the reported score equals
clamp(round(sum of weight times sourceWeight[source]), 0, 100), and
appending one more nonnegative flag never decreases the reported score. -/
theorem nonneg_flags_score_clamped_and_monotone (cfg : Config) (clock : Clock)
    (flags : List Flag) (g : Flag)
    (hW : ∀ s : Source, 0 < cfg.sourceWeight s)
    (hflags : ∀ f ∈ flags, 0 ≤ f.weight) (hg : 0 ≤ g.weight) :
    (calculateModerationScore cfg clock flags none).score
        = clampZ (jsRound ((flags.map
            (fun f => f.weight * cfg.sourceWeight f.source)).sum))
    ∧ (calculateModerationScore cfg clock flags none).score
        ≤ (calculateModerationScore cfg clock (flags ++ [g]) none).score := by
  have hadj : ∀ f : Flag, adjustedWeightOf cfg f = f.weight * cfg.sourceWeight f.source := by
    intro f
    rw [adjustedWeightOf, jsOr_of_pos (hW f.source)]
  have hbase : ∀ l : List Flag, baseScoreSpec cfg l
      = (l.map (fun f => f.weight * cfg.sourceWeight f.source)).sum := by
    intro l
    rw [baseScoreSpec]
    congr 1
    exact List.map_congr_left (fun f _ => hadj f)
  have hnn : ∀ l : List Flag, (∀ f ∈ l, 0 ≤ f.weight) → 0 ≤ baseScoreSpec cfg l := by
    intro l hl
    rw [baseScoreSpec]
    apply List.sum_nonneg
    intro x hx
    obtain ⟨f, hf, rfl⟩ := List.mem_map.mp hx
    rw [hadj f]
    exact mul_nonneg (hl f hf) (le_of_lt (hW f.source))
  have hscore : ∀ l : List Flag, (calculateModerationScore cfg clock l none).score
      = jsRound (clampQ (baseScoreSpec cfg l)) := by
    intro l
    rw [calculateModerationScore_eq]
    rfl
  constructor
  · rw [hscore, round_clamp_comm (hnn flags hflags), hbase]
  · have hmono : baseScoreSpec cfg flags ≤ baseScoreSpec cfg (flags ++ [g]) := by
      have hgnn : 0 ≤ adjustedWeightOf cfg g := by
        rw [hadj]
        exact mul_nonneg hg (le_of_lt (hW g.source))
      rw [baseScoreSpec, baseScoreSpec, List.map_append, List.sum_append,
        List.map_singleton, List.sum_singleton]
      linarith
    rw [hscore, hscore]
    apply jsRound_mono
    rw [clampQ, clampQ]
    exact min_le_min (max_le_max hmono (le_refl 0)) (le_refl 100)

/-- Witness for C2 at a concrete rule flag list with one appended flag. -/
theorem nonneg_flags_score_clamped_and_monotone_witness :
    (calculateModerationScore defaultConfig ⟨0, 12⟩ [piiSampleFlag] none).score
      = clampZ (jsRound (([piiSampleFlag].map
            (fun f => f.weight * defaultConfig.sourceWeight f.source)).sum))
    ∧ (calculateModerationScore defaultConfig ⟨0, 12⟩ [piiSampleFlag] none).score
      ≤ (calculateModerationScore defaultConfig ⟨0, 12⟩
          ([piiSampleFlag] ++ [mlSampleFlag]) none).score :=
  nonneg_flags_score_clamped_and_monotone defaultConfig ⟨0, 12⟩
    [piiSampleFlag] mlSampleFlag
    (by intro s; cases s <;> norm_num [Config.sourceWeight, defaultConfig])
    (by intro f hf; simp at hf; rw [hf]; norm_num [piiSampleFlag])
    (by norm_num [mlSampleFlag])

/-- C7: the temporal risk multiplier used on the scoring path ignores the
post frequency: for features with no hour burst and no day burst but a
post frequency of 11 per hour, the scoring-path multiplier is 1.0, while
the multiplier exported by the temporal feature module (which the
specification describes) yields 1.1 for the very same features. -/
theorem temporal_multiplier_frequency_divergence :
    getTemporalRiskMultiplierScoring
        { isBursting := false, burstHour := false, burstDay := false,
          postFrequency := 11, timeOfDay := 12 } = 1
    ∧ getTemporalRiskMultiplier
        { isBursting := false, burstHour := false, burstDay := false,
          postFrequency := 11, timeOfDay := 12 } = 11/10 := by
  constructor
  · norm_num [getTemporalRiskMultiplierScoring]
  · norm_num [getTemporalRiskMultiplier]

/-- C8: exactly the provider categories with confidence above 0.6 become ML
flags (with weight round(confidence times 40), built by mkMLFlag), and the
merge keeps all rule flags and appends each ML flag, reducing its weight by
30 percent (rounded) and annotating its message exactly when its category
is already rule-flagged, leaving it unchanged otherwise. -/
theorem ml_gating_and_merge (providerName : String)
    (cats : List (String × Detection)) (ml rule : List Flag) :
    mlFlagsFromCategories providerName cats
        = (cats.filter (fun cd => (3:ℚ)/5 < cd.2.confidence)).map
            (fun cd => mkMLFlag providerName cd.1 cd.2)
    ∧ mergeMLAndRuleFlags ml rule
        = rule ++ ml.map (fun f =>
            if f.category ∈ rule.map Flag.category then reinforceFlag f else f) := by
  constructor
  · induction cats with
    | nil => rfl
    | cons cd rest ih =>
        by_cases h : (3:ℚ)/5 < cd.2.confidence
        · simp [mlFlagsFromCategories, List.filter_cons, h, ih]
        · simp [mlFlagsFromCategories, List.filter_cons, h, ih]
  · rw [mergeMLAndRuleFlags]
    congr 1
    apply List.map_congr_left
    intro f _
    by_cases hm : f.category ∈ rule.map Flag.category
    · simp [hm]
    · simp [hm]

/-- C4: if any stage of the pipeline throws, moderateContent returns the
fail-closed result: score 100, label block, and exactly one synthetic flag
with category error, weight 100 and source rule. -/
theorem engine_fail_closed (cfg : Config) (clock : Clock) (env : EngineEnv)
    (text : Option String) (media : Option Media) (opts : Options) (e : String)
    (h : pipelineFlags cfg env text media = Except.error e) :
    moderateContent cfg clock env text media opts
        = { score := 100, label := .block, platform := opts.platform.getD .generic,
            flags := [errorFlag e] }
    ∧ (errorFlag e).category = "error"
    ∧ (errorFlag e).weight = 100
    ∧ (errorFlag e).source = .rule := by
  refine ⟨?_, rfl, rfl, rfl⟩
  unfold moderateContent
  rw [h]
  rfl

/-- Witness for C4: a detector that throws leads to the fail-closed result. -/
theorem engine_fail_closed_witness :
    moderateContent defaultConfig ⟨0, 12⟩ throwingEnv (some "hello") none {}
        = { score := 100, label := .block, platform := .generic,
            flags := [errorFlag "boom"] } :=
  (engine_fail_closed defaultConfig ⟨0, 12⟩ throwingEnv (some "hello") none {}
    "boom" (by rfl)).1

section ClockFreeLemmas

theorem analyzeContextFeatures_clock_free (cfg : Config) (c1 c2 : Clock)
    (ctx : Context) (h : ctx.timeFree = true) :
    analyzeContextFeatures cfg c1 ctx = analyzeContextFeatures cfg c2 ctx := by
  rw [Context.timeFree, Bool.and_eq_true] at h
  obtain ⟨ha, hph⟩ := h
  have hph' : ctx.postingHistory = none := Option.isNone_iff_eq_none.mp hph
  cases hacc : ctx.account with
  | none => simp [analyzeContextFeatures, hph', hacc]
  | some a =>
      have hcr : a.createdAtMs = none := by
        rw [hacc] at ha
        exact Option.isNone_iff_eq_none.mp ha
      simp [analyzeContextFeatures, hph', hacc, analyzeAccountFeatures, hcr]

theorem calculateModerationScore_clock_free (cfg : Config) (c1 c2 : Clock)
    (flags : List Flag) (octx : Option Context)
    (h : contextTimeFree octx = true) :
    calculateModerationScore cfg c1 flags octx
      = calculateModerationScore cfg c2 flags octx := by
  cases octx with
  | none => rfl
  | some ctx =>
      have hc := analyzeContextFeatures_clock_free cfg c1 c2 ctx h
      simp only [calculateModerationScore, hc]

end ClockFreeLemmas

/-- C9: the engine is a pure function of its inputs, and when the context
carries no time-dependent fields (account.createdAt and postingHistory are
the fields whose analysis reads the wall clock), two runs with identical
text, media, options and stage results produce identical output whatever
the wall clock reads. -/
theorem engine_deterministic_without_time_fields (cfg : Config) (c1 c2 : Clock)
    (env : EngineEnv) (text : Option String) (media : Option Media)
    (opts : Options) (h : contextTimeFree opts.context = true) :
    moderateContent cfg c1 env text media opts
      = moderateContent cfg c2 env text media opts := by
  unfold moderateContent
  cases hp : pipelineFlags cfg env text media with
  | ok fl =>
      simp only [calculateModerationScore_clock_free cfg c1 c2 fl opts.context h]
  | error e => rfl

/-- Witness for C9: two runs at different wall clocks with a suspicious
engagement context agree. -/
theorem engine_deterministic_without_time_fields_witness :
    moderateContent defaultConfig ⟨0, 3⟩ okEnv (some "hello") none sampleOptions
      = moderateContent defaultConfig ⟨86400000, 23⟩ okEnv (some "hello") none
          sampleOptions :=
  engine_deterministic_without_time_fields defaultConfig ⟨0, 3⟩ ⟨86400000, 23⟩
    okEnv (some "hello") none sampleOptions (by rfl)

section ScanLemmas

theorem scanCandidates_spec (cfg : Config) (pHash : String) (pool : List String)
    (hlen : ∀ c ∈ pool, c.length = pHash.length) :
    scanCandidates cfg pHash pool = Except.ok
      (match pool.find? (isDuplicateMatch cfg pHash) with
       | none => ([], none, none)
       | some c => ([duplicateImageFlag pHash (1 - normalizedDistance pHash c)],
           some c, some (1 - normalizedDistance pHash c))) := by
  induction pool with
  | nil => rfl
  | cons c rest ih =>
      have hc : pHash.length = c.length := (hlen c (by simp)).symm
      have hham := hammingDistance_ok pHash c hc
      have hrest := ih (fun x hx => hlen x (List.mem_cons_of_mem c hx))
      by_cases hm : (diffCount pHash c : ℚ) / (pHash.length : ℚ)
          ≤ cfg.thresholds.duplicate
      · simp [scanCandidates, hham, Bind.bind, Except.bind, normalizedDistance,
          List.find?_cons, isDuplicateMatch, hm]
      · simp [scanCandidates, hham, Bind.bind, Except.bind, normalizedDistance,
          List.find?_cons, isDuplicateMatch, hm, hrest]

theorem scanFrameForDuplicates_spec (cfg : Config) (pHash : String)
    (frameIndex : ℤ) (pool : List String)
    (hlen : ∀ c ∈ pool, c.length = pHash.length) :
    scanFrameForDuplicates cfg pHash frameIndex pool = Except.ok
      (match pool.find? (isDuplicateMatch cfg pHash) with
       | none => []
       | some c => [duplicateVideoFlag pHash frameIndex
           (1 - normalizedDistance pHash c)]) := by
  induction pool with
  | nil => rfl
  | cons c rest ih =>
      have hc : pHash.length = c.length := (hlen c (by simp)).symm
      have hham := hammingDistance_ok pHash c hc
      have hrest := ih (fun x hx => hlen x (List.mem_cons_of_mem c hx))
      by_cases hm : (diffCount pHash c : ℚ) / (pHash.length : ℚ)
          ≤ cfg.thresholds.duplicate
      · simp [scanFrameForDuplicates, hham, Bind.bind, Except.bind,
          normalizedDistance, List.find?_cons, isDuplicateMatch, hm]
      · simp [scanFrameForDuplicates, hham, Bind.bind, Except.bind,
          normalizedDistance, List.find?_cons, isDuplicateMatch, hm, hrest]

theorem legacyScanFrame_length (cfg : Config) (pHash : String) (frameIndex : ℤ)
    (pool : List String) :
    (legacyScanFrame cfg pHash frameIndex pool).length
      = pool.countP (fun c =>
          decide ((1 - cfg.thresholds.duplicate) * 100 ≤ computeSimilarity pHash c)) := by
  induction pool with
  | nil => rfl
  | cons c rest ih =>
      by_cases h : (1 - cfg.thresholds.duplicate) * 100 ≤ computeSimilarity pHash c
      · simp [legacyScanFrame, h, ih, List.countP_cons]
      · simp [legacyScanFrame, h, ih, List.countP_cons]

end ScanLemmas

/-- C5 (amended): for a nonempty candidate hash, a pool entry is a
duplicate match exactly when the normalized Hamming distance is at most
the configured threshold; the image matcher and the current per-keyframe
video matcher scan linearly, stop at the first match, and emit at most one
duplicate flag (weight 20, confidence 1 minus the normalized distance, and
for video the frame index); the legacy video variant, by contrast, emits
one duplicate flag per matching pool entry because its loop has no
break. -/
theorem duplicate_first_match_policy (cfg : Config) (pHash : String)
    (frameIndex : ℤ) (pool : List String)
    (_hne : pHash.length ≠ 0)
    (hlen : ∀ c ∈ pool, c.length = pHash.length) :
    (scanCandidates cfg pHash pool = Except.ok
      (match pool.find? (isDuplicateMatch cfg pHash) with
       | none => ([], none, none)
       | some c => ([duplicateImageFlag pHash (1 - normalizedDistance pHash c)],
           some c, some (1 - normalizedDistance pHash c))))
    ∧ (scanFrameForDuplicates cfg pHash frameIndex pool = Except.ok
      (match pool.find? (isDuplicateMatch cfg pHash) with
       | none => []
       | some c => [duplicateVideoFlag pHash frameIndex
           (1 - normalizedDistance pHash c)]))
    ∧ ((legacyScanFrame cfg pHash frameIndex pool).length
      = pool.countP (fun c =>
          decide ((1 - cfg.thresholds.duplicate) * 100 ≤ computeSimilarity pHash c))) :=
  ⟨scanCandidates_spec cfg pHash pool hlen,
   scanFrameForDuplicates_spec cfg pHash frameIndex pool hlen,
   legacyScanFrame_length cfg pHash frameIndex pool⟩

/-- Witness for C5 at a concrete hash and singleton pool. -/
theorem duplicate_first_match_policy_witness :
    (scanCandidates defaultConfig "10101010" ["10101010"] = Except.ok
      (match ["10101010"].find? (isDuplicateMatch defaultConfig "10101010") with
       | none => ([], none, none)
       | some c => ([duplicateImageFlag "10101010" (1 - normalizedDistance "10101010" c)],
           some c, some (1 - normalizedDistance "10101010" c))))
    ∧ (scanFrameForDuplicates defaultConfig "10101010" 0 ["10101010"] = Except.ok
      (match ["10101010"].find? (isDuplicateMatch defaultConfig "10101010") with
       | none => []
       | some c => [duplicateVideoFlag "10101010" 0
           (1 - normalizedDistance "10101010" c)]))
    ∧ ((legacyScanFrame defaultConfig "10101010" 0 ["10101010"]).length
      = (["10101010"] : List String).countP (fun c =>
          decide ((1 - defaultConfig.thresholds.duplicate) * 100
            ≤ computeSimilarity "10101010" c))) :=
  duplicate_first_match_policy defaultConfig "10101010" 0 ["10101010"]
    (by decide) (by simp)

/-- Counterexample for C5 as stated: the legacy per-keyframe matcher, run
on a pool holding two copies of the frame hash itself, emits two duplicate
flags for the single keyframe, not at most one. -/
theorem legacy_video_scan_emits_two_flags :
    (legacyScanFrame defaultConfig "10101010" 0 ["10101010", "10101010"]).length = 2 := by
  have hsim : computeSimilarity "10101010" "10101010" = 100 := by
    have hlen8 : ("10101010" : String).length = 8 := by decide
    rw [computeSimilarity, hammingLoop_self, hlen8]
    norm_num
  have hcond : ((1 : ℚ) - defaultConfig.thresholds.duplicate) * 100
      ≤ computeSimilarity "10101010" "10101010" := by
    rw [hsim]
    norm_num [defaultConfig]
  simp [legacyScanFrame, hcond]

end ContentFlagger
